import Mathlib

/-
Shallow embedding of the core of the `crabbiness` NES emulator
(src/ppu.rs, src/bus.rs, src/cpu.rs, src/controller.rs, src/rom.rs).

Modelling conventions:
* Machine integers (u8/u16/usize/u64) are `Nat`, with `% 256`, `% 65536`,
  `&&& 0x3fff`, ... exactly where the Rust code wraps or masks.
* Byte arrays (`[u8; N]`) are functions `Nat → Nat`; `Vec<u8>` is `List Nat`
  so that length-dependent behaviour (bounds checks, 16 KiB PRG folding) is
  preserved.  Array accesses whose index provably stays in bounds in the
  source (OAM via a u8 pointer, VRAM via the mirroring map) use the function
  directly; accesses that can go out of bounds in the source (palette,
  chr_rom, prg_rom) are bounds-checked and return `Option`, `none` being the
  Rust panic.
* Functions that can panic (`panic!`, out-of-bounds indexing, `todo!`)
  return `Option`; `none` models the abort.
-/

namespace Crabbiness

/-- Pointwise update of a byte store modelled as a function (`arr[j] = v`). -/
def upd (f : Nat → Nat) (j v : Nat) : Nat → Nat := fun i => if i = j then v else f i

/-- Bitflags `contains` for a (single- or multi-bit) flag on a `u8` register. -/
def hasFlag (bits flag : Nat) : Bool := (bits &&& flag) == flag

/-- Bitflags `set`: insert the flag when `value`, else remove it (`bits & !flag`
on `u8`, i.e. mask with the 8-bit complement). -/
def bset (bits flag : Nat) (value : Bool) : Nat :=
  if value then bits ||| flag else bits &&& (0xff ^^^ flag)

/-! ## PPU registers (src/ppu.rs) -/

/-- PPU status register bit: sprite-0 hit. -/
def SPRITE_0_HIT : Nat := 0x40

/-- PPU status register bit: vertical blank started. -/
def VBLANK_START : Nat := 0x80

/-- PPU control register bit: NMI starts on vertical-blank interval. -/
def NMISTARTS_ON_VBI : Nat := 0x80

/-- PPU control register bit: VRAM address increment of 32 per CPU access. -/
def VRAM_INC_PER_CPU : Nat := 0x04

/-- PPU mask register bit: show sprites. -/
def SHOW_SPRITES : Nat := 0x10

/-- PpuAddrRegister: the double-write PPUADDR latch (`value: u16`, `latch: bool`). -/
structure PpuAddrRegister where
  value : Nat
  latch : Bool
  deriving Repr, DecidableEq

/-- PpuAddrRegister::new — value 0, latch expecting the high byte. -/
def PpuAddrRegister.new : PpuAddrRegister := { value := 0, latch := true }

/-- PpuAddrRegister::update — on the first write (latch true) replace the high
little-endian byte, on the second the low byte; toggle the latch.
(`u16::from_le_bytes` / `to_le_bytes` spelled out on `Nat`.) -/
def PpuAddrRegister.update (r : PpuAddrRegister) (data : Nat) : PpuAddrRegister :=
  { value := if r.latch then r.value % 256 + data * 256 else data + r.value / 256 * 256,
    latch := !r.latch }

/-- PpuAddrRegister::inc — `value.wrapping_add(input) & 0x3fff`. -/
def PpuAddrRegister.inc (r : PpuAddrRegister) (input : Nat) : PpuAddrRegister :=
  { r with value := (r.value + input) % 65536 &&& 0x3fff }

/-- PpuAddrRegister::reset — re-arm the latch for a high byte. -/
def PpuAddrRegister.reset (r : PpuAddrRegister) : PpuAddrRegister :=
  { r with latch := true }

/-- PpuScrollRegister: the double-write PPUSCROLL latch. -/
structure PpuScrollRegister where
  x : Nat
  y : Nat
  latch : Bool
  deriving Repr, DecidableEq

/-- PpuScrollRegister::new. -/
def PpuScrollRegister.new : PpuScrollRegister := { x := 0, y := 0, latch := false }

/-- PpuScrollRegister::write — first write stores x, second stores y. -/
def PpuScrollRegister.write (r : PpuScrollRegister) (data : Nat) : PpuScrollRegister :=
  if !r.latch then { r with x := data, latch := !r.latch }
  else { r with y := data, latch := !r.latch }

/-- PpuScrollRegister::reset. -/
def PpuScrollRegister.reset (r : PpuScrollRegister) : PpuScrollRegister :=
  { r with latch := false }

/-- PpuCtrlRegister::vram_inc — 32 when bit 2 is set, else 1. -/
def vram_inc (ctrl : Nat) : Nat := if hasFlag ctrl VRAM_INC_PER_CPU then 32 else 1

/-- PpuCtrlRegister::nmi_starts_on_vblank_ok — bit 7 of PPUCTRL. -/
def nmi_starts_on_vblank_ok (ctrl : Nat) : Bool := hasFlag ctrl NMISTARTS_ON_VBI

/-- PpuStatusRegister::is_vblank — bit 7 of PPUSTATUS. -/
def is_vblank (status : Nat) : Bool := hasFlag status VBLANK_START

/-! ## The PPU itself (src/ppu.rs) -/

/-- Ppu state: character ROM, 32-byte palette, 2 KiB VRAM, 256-byte OAM,
registers, the delayed-read buffer, dot (`cycle`) and scanline counters and
the NMI edge flag. -/
structure Ppu where
  chr_rom : List Nat
  palette : Nat → Nat
  vram : Nat → Nat
  oam : Nat → Nat
  oam_addr : Nat
  mirroring : Bool
  ctrl_register : Nat
  mask_register : Nat
  addr_register : PpuAddrRegister
  status_register : Nat
  scroll_register : PpuScrollRegister
  buffer : Nat
  cycle : Nat
  scanline : Nat
  has_nmi : Option Bool

/-- Ppu::new. -/
def Ppu.new (chr_rom : List Nat) (mirroring : Bool) : Ppu where
  chr_rom := chr_rom
  palette := fun _ => 0
  vram := fun _ => 0
  oam := fun _ => 0
  oam_addr := 0
  mirroring := mirroring
  ctrl_register := 0
  mask_register := 0
  addr_register := PpuAddrRegister.new
  status_register := 0
  scroll_register := PpuScrollRegister.new
  buffer := 0
  cycle := 0
  scanline := 0
  has_nmi := none

/-- Ppu::set_sprite0_hit — sets the sprite-0-hit status bit to the value of
`oam[0] == scanline && oam[3] <= cycle && mask.SHOW_SPRITES`. -/
def Ppu.set_sprite0_hit (p : Ppu) : Ppu :=
  let x := p.oam 3
  let y := p.oam 0
  { p with status_register := (bset p.status_register SPRITE_0_HIT
      ((y == p.scanline) && (decide (x ≤ p.cycle) && hasFlag p.mask_register SHOW_SPRITES))) }

/-- Ppu::tick — add `cycle` dots; on crossing 341 check sprite-0 hit, advance
the scanline, set VBlank (and possibly the NMI edge) on entering scanline
241, and wrap the frame on reaching scanline 262, reporting `true`.
The Rust parameter is declared `u8` but is immediately widened
(`cycle as usize`); the dot count is therefore taken as a plain `Nat`. -/
def Ppu.tick (p : Ppu) (cycle : Nat) : Ppu × Bool :=
  let p := { p with cycle := p.cycle + cycle }
  if p.cycle ≥ 341 then
    let p := p.set_sprite0_hit
    let p := { p with cycle := p.cycle - 341, scanline := p.scanline + 1 }
    let p : Ppu :=
      if p.scanline == 241 then
        let p := { p with status_register := bset p.status_register VBLANK_START true }
        let p := { p with status_register := bset p.status_register SPRITE_0_HIT false }
        if nmi_starts_on_vblank_ok p.ctrl_register then { p with has_nmi := some true } else p
      else p
    if p.scanline ≥ 262 then
      ({ p with
          scanline := 0
          has_nmi := none
          status_register :=
            (bset (bset p.status_register SPRITE_0_HIT false) VBLANK_START false) }, true)
    else (p, false)
  else (p, false)

/-- Ppu::read_oamdata — `oam[oam_addr]`, pointer not advanced. -/
def Ppu.read_oamdata (p : Ppu) : Nat := p.oam p.oam_addr

/-- Ppu::write_oamdata — store at the pointer and post-increment it (u8 wrap). -/
def Ppu.write_oamdata (p : Ppu) (input : Nat) : Ppu :=
  { p with oam := upd p.oam p.oam_addr input, oam_addr := (p.oam_addr + 1) % 256 }

/-- Ppu::write_oamaddr. -/
def Ppu.write_oamaddr (p : Ppu) (addr : Nat) : Ppu := { p with oam_addr := addr }

/-- Ppu::write_oamdata_dma — push 256 bytes through the OAM data writer. -/
def Ppu.write_oamdata_dma (p : Ppu) (data : List Nat) : Ppu :=
  data.foldl Ppu.write_oamdata p

/-- Ppu::write_scrolldata. -/
def Ppu.write_scrolldata (p : Ppu) (input : Nat) : Ppu :=
  { p with scroll_register := p.scroll_register.write input }

/-- Ppu::write_ppumask. -/
def Ppu.write_ppumask (p : Ppu) (input : Nat) : Ppu := { p with mask_register := input }

/-- Ppu::write_ppuaddr. -/
def Ppu.write_ppuaddr (p : Ppu) (input : Nat) : Ppu :=
  { p with addr_register := p.addr_register.update input }

/-- Ppu::write_ppuctrl — update PPUCTRL; raise the NMI edge when NMI-enable
goes false→true while VBlank is set. -/
def Ppu.write_ppuctrl (p : Ppu) (input : Nat) : Ppu :=
  let before := nmi_starts_on_vblank_ok p.ctrl_register
  let p := { p with ctrl_register := input }
  if !before && (nmi_starts_on_vblank_ok p.ctrl_register && is_vblank p.status_register) then
    { p with has_nmi := some true }
  else p

/-- Ppu::read_ppustatus — return the status bits, reset both write latches and
clear VBlank. -/
def Ppu.read_ppustatus (p : Ppu) : Nat × Ppu :=
  let ret := p.status_register
  let p := { p with scroll_register := p.scroll_register.reset,
                    addr_register := p.addr_register.reset }
  (ret, { p with status_register := bset p.status_register VBLANK_START false })

/-- Ppu::increment_vram — bump the address register by the PPUCTRL step. -/
def Ppu.increment_vram (p : Ppu) : Ppu :=
  { p with addr_register := p.addr_register.inc (vram_inc p.ctrl_register) }

/-- Ppu::mirror_vram_addr — nametable mirroring for 0x2000–0x2fff. -/
def Ppu.mirror_vram_addr (p : Ppu) (addr : Nat) : Nat :=
  let index := addr - 0x2000
  let quadrant := index / 0x400
  match p.mirroring, quadrant with
  | false, 1 => index - 0x400
  | false, 2 => index - 0x400
  | false, 3 => index - 0x800
  | true, 2 => index - 0x800
  | true, 3 => index - 0x800
  | _, _ => index

/-- Bounds-checked palette write (`self.palette[idx] = input`; the 32-byte
array panics on an index ≥ 32). -/
def Ppu.palWrite (p : Ppu) (idx input : Nat) : Option Ppu :=
  if idx < 32 then some { p with palette := upd p.palette idx input } else none

/-- Bounds-checked palette read (`self.palette[idx]`). -/
def Ppu.palRead (p : Ppu) (idx : Nat) : Option Nat :=
  if idx < 32 then some (p.palette idx) else none

/-- Ppu::write_ppudata — route the data-port write by the internal address
(chr_rom and the reserved 0x3000–0x3eff region panic; 0x3f10/14/18/1c alias
down by 0x10), then increment the address register. -/
def Ppu.write_ppudata (p : Ppu) (input : Nat) : Option Ppu :=
  let addr := p.addr_register.value
  (if addr ≤ 0x1fff then none
   else if addr ≤ 0x2fff then
     some { p with vram := upd p.vram (p.mirror_vram_addr addr) input }
   else if addr ≤ 0x3eff then none
   else if addr = 0x3f10 ∨ addr = 0x3f14 ∨ addr = 0x3f18 ∨ addr = 0x3f1c then
     p.palWrite (addr - 0x3f00 - 0x10) input
   else if addr ≤ 0x3fff then p.palWrite (addr - 0x3f00) input
   else none).map Ppu.increment_vram

/-- Ppu::read_data — save the internal address, increment it, then serve the
read: chr_rom/VRAM through the delayed-read buffer, palette immediately
(with the 0x3f10/14/18/1c aliasing); 0x3000–0x3eff panics. -/
def Ppu.read_data (p : Ppu) : Option (Nat × Ppu) :=
  let addr := p.addr_register.value
  let p := p.increment_vram
  if addr ≤ 0x1fff then
    match p.chr_rom.get? addr with
    | some b => some (p.buffer, { p with buffer := b })
    | none => none
  else if addr ≤ 0x2fff then
    some (p.buffer, { p with buffer := p.vram (p.mirror_vram_addr addr) })
  else if addr ≤ 0x3eff then none
  else if addr = 0x3f10 ∨ addr = 0x3f14 ∨ addr = 0x3f18 ∨ addr = 0x3f1c then
    (p.palRead (addr - 0x3f00 - 0x10)).map (fun v => (v, p))
  else if addr ≤ 0x3fff then (p.palRead (addr - 0x3f00)).map (fun v => (v, p))
  else none

/-! ## Controller (src/controller.rs) -/

/-- Controller state: read index, latched button status byte and strobe flag.
Status bits, LSB first: A, B, Select, Start, Up, Down, Left, Right. -/
structure Controller where
  index : Nat
  status : Nat
  strobe : Bool
  deriving Repr, DecidableEq

/-- Controller::new. -/
def Controller.new : Controller := { index := 0, status := 0, strobe := false }

/-- Controller::read — past index 7 always return 1; otherwise return bit
`index` of the latched status and, when the strobe is off, post-increment
the index. -/
def Controller.read (c : Controller) : Nat × Controller :=
  if c.index > 7 then (1, c)
  else
    let ret := if c.status &&& (1 <<< c.index) > 0 then 1 else 0
    if !c.strobe && c.index ≤ 7 then (ret, { c with index := c.index + 1 }) else (ret, c)

/-- Controller::write — writing exactly 1 sets the strobe and resets the
index; any other value clears the strobe (index untouched). -/
def Controller.write (c : Controller) (data : Nat) : Controller :=
  if data = 1 then { c with strobe := true, index := 0 } else { c with strobe := false }

/-! ## ROM (src/rom.rs) -/

/-- Rom: program ROM, character ROM and the header mirroring flag (the only
header field the bus/PPU consume). -/
structure Rom where
  prg_rom : List Nat
  chr_rom : List Nat
  mirroring : Bool

/-- Rom::read_byte — map 0x8000–0xffff onto the program ROM, folding a
16 KiB image modulo 0x4000; the `Vec` index panics when out of range.
(The bus only calls this with `address ≥ 0x8000`, so the `u16` subtraction
cannot underflow.) -/
def Rom.read_byte (r : Rom) (address : Nat) : Option Nat :=
  let addr := address - 0x8000
  let addr := if r.prg_rom.length ≤ 0x4000 && addr ≥ 0x4000 then addr % 0x4000 else addr
  r.prg_rom.get? addr

/-! ## Bus (src/bus.rs) -/

/-- Bus state: 2 KiB CPU RAM, the cartridge, the PPU, the controller and the
CPU cycle accumulator. -/
structure Bus where
  ram : Nat → Nat
  rom : Rom
  ppu : Ppu
  controller : Controller
  cycle : Nat

/-- Bus::new. -/
def Bus.new (rom : Rom) : Bus where
  ram := fun _ => 0
  rom := rom
  ppu := Ppu.new rom.chr_rom rom.mirroring
  controller := Controller.new
  cycle := 0

/-- PPU register-port read arms of Bus::read_u8, for an address already
reduced to 0x2000–0x2007 (directly or through the 0x2008–0x3fff mirror,
whose recursive `read_u8(address & 0x2007)` always lands here): 0x2002
status, 0x2004 OAM data, 0x2007 data port; the write-only ports panic. -/
def Bus.ppu_port_read (bus : Bus) (address : Nat) : Option (Nat × Bus) :=
  if address = 0x2002 then
    let r := bus.ppu.read_ppustatus
    some (r.1, { bus with ppu := r.2 })
  else if address = 0x2004 then some (bus.ppu.read_oamdata, bus)
  else if address = 0x2007 then
    (bus.ppu.read_data).map (fun r => (r.1, { bus with ppu := r.2 }))
  else none

/-- Bus::read_u8 — decode a CPU read: RAM mirrored mod 0x800, PPU ports
(0x2008–0x3fff re-decoded through `address & 0x2007`), controller at
0x4016, stubbed player 2 at 0x4017, cartridge at 0x8000–0xffff; reads of
write-only ports (0x2000/01/03/05/06, 0x4014) and unrouted addresses panic. -/
def Bus.read_u8 (bus : Bus) (address : Nat) : Option (Nat × Bus) :=
  if address ≤ 0x1fff then some (bus.ram (address % 0x800), bus)
  else if address = 0x2000 ∨ address = 0x2001 ∨ address = 0x2003 ∨ address = 0x2005
      ∨ address = 0x2006 ∨ address = 0x4014 then none
  else if address = 0x2002 ∨ address = 0x2004 ∨ address = 0x2007 then
    bus.ppu_port_read address
  else if address = 0x4016 then
    let r := bus.controller.read
    some (r.1, { bus with controller := r.2 })
  else if address = 0x4017 then some (0, bus)
  else if address ≤ 0x3fff then bus.ppu_port_read (address &&& 0x2007)
  else if 0x8000 ≤ address ∧ address ≤ 0xffff then
    (bus.rom.read_byte address).map (fun v => (v, bus))
  else none

/-- PPU register-port write arms of Bus::write_u8 for 0x2000–0x2007 (again
shared with the 0x2008–0x3fff mirror); writing the status port panics. -/
def Bus.ppu_port_write (bus : Bus) (address data : Nat) : Option Bus :=
  if address = 0x2000 then some { bus with ppu := bus.ppu.write_ppuctrl data }
  else if address = 0x2001 then some { bus with ppu := bus.ppu.write_ppumask data }
  else if address = 0x2002 then none
  else if address = 0x2003 then some { bus with ppu := bus.ppu.write_oamaddr data }
  else if address = 0x2004 then some { bus with ppu := bus.ppu.write_oamdata data }
  else if address = 0x2005 then some { bus with ppu := bus.ppu.write_scrolldata data }
  else if address = 0x2006 then some { bus with ppu := bus.ppu.write_ppuaddr data }
  else if address = 0x2007 then
    (bus.ppu.write_ppudata data).map (fun ppu => { bus with ppu := ppu })
  else none

/-- Sequential byte reads `buffer[i] = read_u8(start + i)` for the OAM DMA
loop at 0x4014 (the u16 additions cannot wrap: `start ≤ 0xff00`, `i < 256`). -/
def Bus.read_seq (bus : Bus) (start : Nat) : Nat → Option (List Nat × Bus)
  | 0 => some ([], bus)
  | n + 1 => do
    let r ← bus.read_u8 start
    let rest ← r.2.read_seq (start + 1) n
    pure (r.1 :: rest.1, rest.2)

/-- Bus::write_u8 — decode a CPU write: RAM, PPU ports (with mirroring), the
dropped APU range 0x4000–0x4013 and 0x4015, OAM DMA at 0x4014 (256 reads
from `data << 8` pushed through the PPU's OAM writer), controller at
0x4016, dropped player 2 at 0x4017; everything else panics. -/
def Bus.write_u8 (bus : Bus) (address data : Nat) : Option Bus :=
  if address ≤ 0x1fff then some { bus with ram := upd bus.ram (address % 0x800) data }
  else if address ≤ 0x2007 then bus.ppu_port_write address data
  else if address ≤ 0x3fff then bus.ppu_port_write (address &&& 0x2007) data
  else if address ≤ 0x4013 then some bus
  else if address = 0x4014 then
    (bus.read_seq (data <<< 8) 256).map
      (fun r => { r.2 with ppu := r.2.ppu.write_oamdata_dma r.1 })
  else if address = 0x4015 then some bus
  else if address = 0x4016 then some { bus with controller := bus.controller.write data }
  else if address = 0x4017 then some bus
  else none

/-- Bus::read_u16 — two sequential byte reads at `addr` and `addr+1`
(little-endian, 16-bit wrap on the address). -/
def Bus.read_u16 (bus : Bus) (address : Nat) : Option (Nat × Bus) := do
  let lo ← bus.read_u8 ((address + 0) % 65536)
  let hi ← lo.2.read_u8 ((address + 1) % 65536)
  pure (lo.1 ||| hi.1 <<< 8, hi.2)

/-- Bus::read_bytes — `size` sequential reads at `address.wrapping_add(i)`. -/
def Bus.read_bytes (bus : Bus) (address : Nat) : Nat → Option (List Nat × Bus)
  | 0 => some ([], bus)
  | n + 1 => do
    let r ← bus.read_u8 address
    let rest ← r.2.read_bytes ((address + 1) % 65536) n
    pure (r.1 :: rest.1, rest.2)

/-- Bus::tick — accumulate CPU cycles, advance the PPU by `3 * cycle` dots
(a `u8` product in the source) and report whether the PPU's NMI edge went
from clear to raised during this call. -/
def Bus.tick (bus : Bus) (cycle : Nat) : Bus × Bool :=
  let bus := { bus with cycle := bus.cycle + cycle }
  let before := bus.ppu.has_nmi.isSome
  let bus := { bus with ppu := (bus.ppu.tick (cycle * 3 % 256)).1 }
  (bus, !before && bus.ppu.has_nmi.isSome)

/-- Bus::take_nmi — read the NMI edge atomically: report whether it was
raised and clear it. -/
def Bus.take_nmi (bus : Bus) : Bool × Bus :=
  (bus.ppu.has_nmi == some true, { bus with ppu := { bus.ppu with has_nmi := none } })

/-! ## CPU (src/cpu.rs)

The 6502 interpreter.  The decode table and executor are embedded for the
instructions this development reasons about (JSR 0x20, RTS 0x60, and the
decoder's catch-all single-byte NOP default); every theorem below pins the
fetched opcode bytes, so no other decode row is ever reached. -/

/-- P-register flag bit: Break. -/
def FLAG_BREAK : Nat := 0x10

/-- P-register flag bit: Unused. -/
def FLAG_UNUSED : Nat := 0x20

/-- P-register flag bit: interrupt disable. -/
def FLAG_INT_DISABLE : Nat := 0x04

/-- Stack page base (`STACK_BYTE_HIGH`). -/
def STACK_BYTE_HIGH : Nat := 0x0100

/-- Opcode mnemonics (the constructors exercised by this development). -/
inductive Opcode where
  | Jsr
  | Rts
  | Nop
  deriving Repr, DecidableEq

/-- Addressing modes (the constructors exercised by this development). -/
inductive AddressingMode where
  | Absolute
  | Implied
  deriving Repr, DecidableEq

/-- Decode-table row: mnemonic, addressing mode, byte length, base cycles. -/
structure Instruction where
  opcode : Opcode
  mode : AddressingMode
  length : Nat
  cycles : Nat

/-- Cpu state: registers, status byte, cycle counter and the owned bus. -/
structure Cpu where
  pc : Nat
  a : Nat
  x : Nat
  y : Nat
  sp : Nat
  p : Nat
  cycles : Nat
  bus : Bus

/-- Cpu::clear_flag — `p &= !flag` in `u8`. -/
def Cpu.clear_flag (cpu : Cpu) (flag : Nat) : Cpu :=
  { cpu with p := cpu.p &&& (0xff ^^^ flag) }

/-- Cpu::set_flag — `p |= flag`. -/
def Cpu.set_flag (cpu : Cpu) (flag : Nat) : Cpu := { cpu with p := cpu.p ||| flag }

/-- Cpu::stack_push_u8 — write to `0x0100 | sp`, then decrement SP with
8-bit wrap. -/
def Cpu.stack_push_u8 (cpu : Cpu) (value : Nat) : Option Cpu := do
  let bus ← cpu.bus.write_u8 (STACK_BYTE_HIGH ||| cpu.sp) value
  pure { cpu with bus := bus, sp := (cpu.sp + 255) % 256 }

/-- Cpu::stack_push_u16 — high byte first, then low byte. -/
def Cpu.stack_push_u16 (cpu : Cpu) (value : Nat) : Option Cpu := do
  let cpu ← cpu.stack_push_u8 ((value &&& 0xff00) >>> 8)
  cpu.stack_push_u8 (value &&& 0xff)

/-- Cpu::stack_pop_u8 — pre-increment SP (8-bit wrap), then read
`0x0100 | sp`. -/
def Cpu.stack_pop_u8 (cpu : Cpu) : Option (Nat × Cpu) := do
  let sp := (cpu.sp + 1) % 256
  let r ← cpu.bus.read_u8 (STACK_BYTE_HIGH ||| sp)
  pure (r.1, { cpu with sp := sp, bus := r.2 })

/-- Cpu::stack_pop_u16 — low byte first, then high byte. -/
def Cpu.stack_pop_u16 (cpu : Cpu) : Option (Nat × Cpu) := do
  let lsb ← cpu.stack_pop_u8
  let msb ← lsb.2.stack_pop_u8
  pure (msb.1 <<< 8 ||| lsb.1, msb.2)

/-- Cpu::nmi — push PC (high byte first), clear Break and set Unused in the
live P register, push P, set interrupt-disable, and load PC from the 16-bit
vector at 0xfffa.  (The source also returns the new PC for BRK's use.) -/
def Cpu.nmi (cpu : Cpu) : Option Cpu := do
  let cpu ← cpu.stack_push_u16 cpu.pc
  let cpu := cpu.clear_flag FLAG_BREAK
  let cpu := cpu.set_flag FLAG_UNUSED
  let cpu ← cpu.stack_push_u8 cpu.p
  let cpu := cpu.set_flag FLAG_INT_DISABLE
  let r ← cpu.bus.read_u16 0xfffa
  pure { cpu with bus := r.2, pc := r.1 }

/-- Cpu::reset — clear A and X, set P to 0x24, load PC from the reset vector
at 0xfffc, set SP to 0xfd.  (The source does not touch Y.) -/
def Cpu.reset (cpu : Cpu) : Option Cpu := do
  let cpu := { cpu with a := 0 }
  let cpu := { cpu with x := 0 }
  let cpu := { cpu with p := 0x24 }
  let r ← cpu.bus.read_u16 0xfffc
  let cpu := { cpu with pc := r.1, bus := r.2 }
  pure { cpu with sp := 0xfd }

/-- InstructionBytes::get_address — `u16::from_le_bytes([bytes[1], bytes[2]])`. -/
def get_address (bytes : List Nat) : Nat := bytes.getD 1 0 ||| bytes.getD 2 0 <<< 8

/-- Cpu::decode — the decode-table rows used here: 0x20 = JSR Absolute
(3 bytes, 6 cycles), 0x60 = RTS Implied (1 byte, 6 cycles), and the
catch-all `_` row, a 1-byte 1-cycle NOP. -/
def Cpu.decode (opcode : Nat) : Instruction :=
  if opcode = 0x20 then { opcode := .Jsr, mode := .Absolute, length := 3, cycles := 6 }
  else if opcode = 0x60 then { opcode := .Rts, mode := .Implied, length := 1, cycles := 6 }
  else { opcode := .Nop, mode := .Implied, length := 1, cycles := 1 }

/-- Cpu::get_operand_address for the embedded modes — Absolute resolves to
the 16-bit operand; Implied panics in the source (`get_operand not
supported`). -/
def Cpu.get_operand_address (cpu : Cpu) (inst : Instruction) (bytes : List Nat) :
    Option (Nat × Cpu) :=
  match inst.mode with
  | .Absolute => some (get_address bytes, cpu)
  | .Implied => none

/-- Cpu::execute for the embedded opcodes.  `new_pc` starts at
`pc + length` (16-bit wrap); JSR pushes `pc + 2` (high byte first) and jumps
to the absolute operand; RTS pops a 16-bit address and loads it plus one. -/
def Cpu.execute (cpu : Cpu) (inst : Instruction) (bytes : List Nat) : Option Cpu :=
  let new_pc := (cpu.pc + inst.length) % 65536
  match inst.opcode with
  | .Nop => some { cpu with pc := new_pc }
  | .Jsr => do
    let t ← cpu.get_operand_address inst bytes
    let ret_addr := (t.2.pc + 2) % 65536
    let cpu ← t.2.stack_push_u16 ret_addr
    pure { cpu with pc := t.1 }
  | .Rts => do
    let r ← cpu.stack_pop_u16
    pure { r.2 with pc := (r.1 + 1) % 65536 }

/-- Cpu::step — fetch the opcode at PC, decode, re-read the instruction
bytes, charge the cycle count (u64 wrap) and tick the bus, execute, and
return the instruction's base cycle count. -/
def Cpu.step (cpu : Cpu) : Option (Cpu × Nat) := do
  let op ← cpu.bus.read_u8 cpu.pc
  let cpu := { cpu with bus := op.2 }
  let inst := Cpu.decode op.1
  let b ← cpu.bus.read_bytes cpu.pc inst.length
  let cpu := { cpu with bus := b.2 }
  let cpu := { cpu with cycles := (cpu.cycles + inst.cycles) % 2 ^ 64 }
  let cpu := { cpu with bus := (cpu.bus.tick inst.cycles).1 }
  let cpu ← cpu.execute inst b.1
  pure (cpu, inst.cycles)

/-! ## Observation helpers

Small executable drivers used to state the claims: iterated PPU ticks with a
frame-boundary count, and iterated controller reads. -/

/-- Iterate `Ppu.tick 341` (one full scanline's worth of dots per call)
`n` times, returning the final state and how many calls reported a frame
boundary (`tick` returning true). -/
def Ppu.runTicks (p : Ppu) : Nat → Ppu × Nat
  | 0 => (p, 0)
  | n + 1 =>
    let r := p.tick 341
    let rest := r.1.runTicks n
    (rest.1, (if r.2 then 1 else 0) + rest.2)

/-- Iterate `Controller.read` `n` times, discarding the values. -/
def Controller.skipReads (c : Controller) : Nat → Controller
  | 0 => c
  | n + 1 => (c.read).2.skipReads n

/-- Value returned by the i-th (0-based) successive controller read. -/
def Controller.nthRead (c : Controller) (i : Nat) : Nat := ((c.skipReads i).read).1

/-- A 16 KiB all-zero program ROM (so both reset/NMI vectors read as 0x0000). -/
def zeroRom : Rom := { prg_rom := List.replicate 0x4000 0, chr_rom := [], mirroring := false }

/-- A freshly constructed PPU with one PPUCTRL write (the only way the
claim's "PPUCTRL bit 7 set" precondition can arise on a fresh PPU). -/
def ppuStart (chr : List Nat) (m : Bool) (c : Nat) : Ppu := (Ppu.new chr m).write_ppuctrl c

/-- Pre-VBlank phase of a frame started from `ppuStart`: scanline k, clean
status, no NMI pending. -/
def ppuPhase1 (chr : List Nat) (m : Bool) (c k : Nat) : Ppu :=
  { Ppu.new chr m with ctrl_register := c, scanline := k }

/-- VBlank phase of a frame started from `ppuStart`: scanline k, VBlank bit
set, NMI pending exactly when PPUCTRL bit 7 is set. -/
def ppuPhase2 (chr : List Nat) (m : Bool) (c k : Nat) : Ppu :=
  { Ppu.new chr m with
      ctrl_register := c
      scanline := k
      status_register := 0x80
      has_nmi := if nmi_starts_on_vblank_ok c then some true else none }

/-- A 16 KiB program ROM holding the spec's JSR/RTS scenario: `JSR 0x8005`
at 0x8000 and `RTS` at 0x8005, zeroes elsewhere. -/
def jsrRom : Rom where
  prg_rom := [0x20, 0x05, 0x80, 0x00, 0x00, 0x60] ++ List.replicate (0x4000 - 6) 0
  chr_rom := []
  mirroring := false

/-! # Theorems

Helper lemmas shared by several claims, then one theorem (plus witness or
counterexample) per claim of the specification review. -/

theorem land_mod_16384 (x : Nat) : x &&& 0x3fff = x % 16384 := by
  have h := Nat.and_pow_two_sub_one_eq_mod x 14
  norm_num at h
  exact h

theorem land_mod_256 (x : Nat) : x &&& 0xff = x % 256 := by
  have h := Nat.and_pow_two_sub_one_eq_mod x 8
  norm_num at h
  exact h

theorem shl8_or_eq (hi lo : Nat) (h : lo < 256) : hi <<< 8 ||| lo = hi * 256 + lo := by
  have h2 := Nat.mul_add_lt_is_or (i := 8) (b := lo) (by simpa using h) hi
  rw [Nat.shiftLeft_eq, Nat.mul_comm hi (2 ^ 8), ← h2]

/-- C10: a controller-port write latches the strobe and resets the read index
exactly when the written byte is 1; any other byte (including ones with bit 0
set) clears the strobe and leaves the index unchanged. -/
theorem c10_controller_write (c : Controller) (d : Nat) (hd : d ≠ 1) :
    c.write 1 = { c with strobe := true, index := 0 } ∧
    c.write d = { c with strobe := false } := by
  refine ⟨by simp [Controller.write], by simp [Controller.write, hd]⟩

/-- Witness for C10 at a concrete controller and the written byte 3 (bit 0
set but not equal to 1). -/
theorem c10_controller_write_witness :
    (Controller.mk 5 7 true).write 1
        = { Controller.mk 5 7 true with strobe := true, index := 0 } ∧
    (Controller.mk 5 7 true).write 3
        = { Controller.mk 5 7 true with strobe := false } :=
  c10_controller_write (Controller.mk 5 7 true) 3 (by decide)

/-- C6 fails as stated: from the reset latch, writing hi = 0x40 then
lo = 0x00 and incrementing leaves the internal address at 0x0001, not at
((0x40 << 8) | 0x00) + 1 = 0x4001 — the increment masks with 0x3fff. -/
theorem c6_counterexample :
    (((PpuAddrRegister.new.update 0x40).update 0x00).inc 1).value = 0x0001 ∧
    (((PpuAddrRegister.new.update 0x40).update 0x00).inc 1).value ≠ (0x40 <<< 8 ||| 0x00) + 1 := by
  refine ⟨by decide, by decide⟩

/-- C6 (amended): for all bytes hi and lo and any address register whose
latch is in the first-write state, writing hi then lo and incrementing by 1
leaves the internal address at (((hi<<8)|lo) + 1) mod 0x4000. -/
theorem c6_addr_latch_inc (r : PpuAddrRegister) (hi lo : Nat)
    (_hhi : hi < 256) (hlo : lo < 256) (hlatch : r.latch = true) :
    (((r.update hi).update lo).inc 1).value = ((hi <<< 8 ||| lo) + 1) % 0x4000 := by
  have hdiv : (r.value % 256 + hi * 256) / 256 = hi := by omega
  simp only [PpuAddrRegister.update, hlatch, PpuAddrRegister.inc, Bool.not_true,
    Bool.false_eq_true, if_true, if_false, land_mod_16384]
  rw [hdiv, shl8_or_eq hi lo hlo]
  rw [Nat.mod_mod_of_dvd _ (by norm_num : (16384 : Nat) ∣ 65536)]
  congr 1
  omega

/-- Witness for C6 (amended) at the freshly constructed register with
hi = 0x12, lo = 0x34. -/
theorem c6_addr_latch_inc_witness :
    (((PpuAddrRegister.new.update 0x12).update 0x34).inc 1).value
      = ((0x12 <<< 8 ||| 0x34) + 1) % 0x4000 :=
  c6_addr_latch_inc PpuAddrRegister.new 0x12 0x34 (by decide) (by decide) (by decide)

/-- C9: every data-port access whose internal address lies in 0x3f20–0x3fff
(all of which miss the four aliased entries) computes a palette index of at
least 32 and aborts on the 32-byte palette array, for writes and reads
alike — the palette is not mirrored every 0x20 bytes. -/
theorem c9_palette_overflow (p : Ppu) (v addr : Nat)
    (h1 : 0x3f20 ≤ addr) (h2 : addr ≤ 0x3fff) (ha : p.addr_register.value = addr) :
    32 ≤ addr - 0x3f00 ∧ p.write_ppudata v = none ∧ p.read_data = none := by
  refine ⟨by omega, ?_, ?_⟩
  · simp only [Ppu.write_ppudata, ha]
    rw [if_neg (by omega), if_neg (by omega), if_neg (by omega), if_neg (by omega),
      if_pos (by omega)]
    simp [Ppu.palWrite, if_neg, show ¬(addr - 0x3f00 < 32) by omega]
  · simp only [Ppu.read_data, ha]
    rw [if_neg (by omega), if_neg (by omega), if_neg (by omega), if_neg (by omega),
      if_pos (by omega)]
    simp [Ppu.palRead, if_neg, show ¬(addr - 0x3f00 < 32) by omega]

/-- Witness for C9 at a fresh PPU whose internal address is 0x3f20. -/
theorem c9_palette_overflow_witness :
    32 ≤ 0x3f20 - 0x3f00 ∧
    Ppu.write_ppudata
      { Ppu.new [] false with addr_register := PpuAddrRegister.mk 0x3f20 true } 0 = none ∧
    Ppu.read_data
      { Ppu.new [] false with addr_register := PpuAddrRegister.mk 0x3f20 true } = none :=
  c9_palette_overflow _ 0 0x3f20 (by decide) (by decide) rfl

theorem and_shl_pos_iff (s i : Nat) : (0 < s &&& 1 <<< i) ↔ s.testBit i = true := by
  have h1 : (1 : Nat) <<< i = 2 ^ i := by rw [Nat.shiftLeft_eq, Nat.one_mul]
  rw [h1, Nat.and_two_pow]
  cases h : s.testBit i <;> simp [Nat.pos_pow_of_pos]

theorem skipReads_no_strobe (s : Nat) : ∀ i k, k ≤ 8 →
    (Controller.mk k s false).skipReads i = Controller.mk (min 8 (k + i)) s false := by
  intro i
  induction i with
  | zero =>
    intro k hk
    simp only [Controller.skipReads]
    congr 1
    omega
  | succ n ih =>
    intro k hk
    by_cases h7 : k > 7
    · have : (Controller.mk k s false).read = (1, Controller.mk k s false) := by
        simp [Controller.read, h7]
      simp only [Controller.skipReads, this]
      rw [ih k hk]
      congr 1
      omega
    · have : ((Controller.mk k s false).read).2 = Controller.mk (k + 1) s false := by
        simp only [Controller.read]
        rw [if_neg h7, if_pos (by simp; omega)]
      simp only [Controller.skipReads, this]
      rw [ih (k + 1) (by omega)]
      congr 1
      omega

theorem skipReads_strobe (s : Nat) (i : Nat) :
    (Controller.mk 0 s true).skipReads i = Controller.mk 0 s true := by
  induction i with
  | zero => rfl
  | succ n ih => simpa [Controller.skipReads, Controller.read] using ih

/-- C5: after the host's strobe pulse (write 1 then write 0), the i-th
successive controller read (i < 8) returns bit i of the latched status and
post-increments the index; every read from the 9th on returns 1.  With the
strobe held (after writing 1), every read returns bit 0 and leaves the
state — in particular the index — unchanged. -/
theorem c5_controller_serial (c : Controller) (i j : Nat) (hi : i < 8) (hj : 8 ≤ j) :
    ((c.write 1).write 0).nthRead i = (if c.status.testBit i then 1 else 0) ∧
    ((c.write 1).write 0).nthRead j = 1 ∧
    ((c.write 1).skipReads i).read = ((if c.status.testBit 0 then 1 else 0), c.write 1) := by
  have hw : (c.write 1).write 0 = Controller.mk 0 c.status false := by
    simp [Controller.write]
  have hw1 : c.write 1 = Controller.mk 0 c.status true := by
    simp [Controller.write]
  refine ⟨?_, ?_, ?_⟩
  · rw [hw, Controller.nthRead, skipReads_no_strobe c.status i 0 (by omega)]
    have hmin : min 8 (0 + i) = i := by omega
    rw [hmin]
    simp only [Controller.read]
    rw [if_neg (by omega : ¬ i > 7), if_pos (by simp; omega)]
    by_cases hb : c.status.testBit i
    · rw [if_pos hb]
      exact if_pos ((and_shl_pos_iff c.status i).2 hb)
    · rw [if_neg hb]
      exact if_neg (fun hlt => hb ((and_shl_pos_iff c.status i).1 hlt))
  · rw [hw, Controller.nthRead, skipReads_no_strobe c.status j 0 (by omega)]
    have hmin : min 8 (0 + j) = 8 := by omega
    rw [hmin]
    simp [Controller.read]
  · rw [hw1, skipReads_strobe]
    simp only [Controller.read]
    rw [if_neg (by omega : ¬ (0 : Nat) > 7), if_neg (by simp)]
    by_cases hb : c.status.testBit 0
    · rw [if_pos hb]
      rw [if_pos ((and_shl_pos_iff c.status 0).2 hb)]
    · rw [if_neg hb]
      rw [if_neg (fun hlt => hb ((and_shl_pos_iff c.status 0).1 hlt))]

/-- Witness for C5 at a concrete controller (stale index and strobe, latched
status 0xa5), third read (i = 2) and tenth read (j = 9). -/
theorem c5_controller_serial_witness :
    (((Controller.mk 3 0xa5 true).write 1).write 0).nthRead 2
        = (if (0xa5 : Nat).testBit 2 then 1 else 0) ∧
    (((Controller.mk 3 0xa5 true).write 1).write 0).nthRead 9 = 1 ∧
    (((Controller.mk 3 0xa5 true).write 1).skipReads 2).read
        = ((if (0xa5 : Nat).testBit 0 then 1 else 0), (Controller.mk 3 0xa5 true).write 1) :=
  c5_controller_serial (Controller.mk 3 0xa5 true) 2 9 (by decide) (by decide)

/-- C3 fails as stated: a bus read at 0x4000 (in the APU range, not 0x4014)
does not return 0 — it falls through to the decoder's catch-all and aborts. -/
theorem c3_counterexample : (Bus.new zeroRom).read_u8 0x4000 = none := rfl

/-- C3 (amended): every bus read in 0x4000–0x4015 is a fatal error (0x4014
as a write-only-port read, the others as unrouted addresses); writes in that
range other than to the DMA port 0x4014 are silently dropped. -/
theorem c3_apu_reads_fatal (bus : Bus) (a d : Nat) (h1 : 0x4000 ≤ a) (h2 : a ≤ 0x4015) :
    bus.read_u8 a = none ∧ (a ≠ 0x4014 → bus.write_u8 a d = some bus) := by
  constructor
  · simp only [Bus.read_u8]
    rw [if_neg (by omega)]
    by_cases h14 : a = 0x4014
    · rw [if_pos (by omega)]
    · rw [if_neg (by omega), if_neg (by omega), if_neg (by omega), if_neg (by omega),
        if_neg (by omega), if_neg (by omega)]
  · intro h14
    simp only [Bus.write_u8]
    rw [if_neg (by omega), if_neg (by omega), if_neg (by omega)]
    by_cases ha : a ≤ 0x4013
    · rw [if_pos ha]
    · rw [if_neg ha, if_neg (by omega), if_pos (by omega)]

/-- Witness for C3 (amended) at address 0x4000 on a freshly built bus. -/
theorem c3_apu_reads_fatal_witness :
    (Bus.new zeroRom).read_u8 0x4000 = none ∧
    ((0x4000 : Nat) ≠ 0x4014 → (Bus.new zeroRom).write_u8 0x4000 0 = some (Bus.new zeroRom)) :=
  c3_apu_reads_fatal (Bus.new zeroRom) 0x4000 0 (by decide) (by decide)

theorem addr_two_writes (w : Nat) :
    ((PpuAddrRegister.mk w true).update 0x3f).update 0x00 = PpuAddrRegister.mk 0x3f00 true := by
  simp [PpuAddrRegister.update]
  omega

theorem write_ppuaddr_twice (s : Ppu) (w : Nat)
    (hs : s.addr_register = PpuAddrRegister.mk w true) :
    (s.write_ppuaddr 0x3f).write_ppuaddr 0x00
      = { s with addr_register := PpuAddrRegister.mk 0x3f00 true } := by
  simp only [Ppu.write_ppuaddr, hs, addr_two_writes]

/-- C7: writing v through the PPU data port while the internal address is
0x3f10 stores v into palette entry 0 (the 0x3f10 alias of 0x3f00), so that
re-pointing the address register at 0x3f00 (status read to reset the latch,
then the two address writes) and reading the data port returns v
immediately, without the delayed-read buffer. -/
theorem c7_palette_alias (p : Ppu) (v : Nat) (haddr : p.addr_register.value = 0x3f10) :
    ∃ p1, p.write_ppudata v = some p1 ∧ p1.palette 0 = v ∧
      ((((p1.read_ppustatus).2.write_ppuaddr 0x3f).write_ppuaddr 0x00).read_data).map
        Prod.fst = some v := by
  have h0 : p.write_ppudata v
      = some (Ppu.increment_vram { p with palette := upd p.palette 0 v }) := by
    simp only [Ppu.write_ppudata, haddr]
    norm_num [Ppu.palWrite]
  refine ⟨_, h0, by simp [Ppu.increment_vram, upd], ?_⟩
  set p1 := Ppu.increment_vram { p with palette := upd p.palette 0 v } with hp1
  have hlatch := write_ppuaddr_twice (p1.read_ppustatus).2 p1.addr_register.value rfl
  rw [hlatch]
  simp only [Ppu.read_data, Ppu.read_ppustatus]
  rw [if_neg (by norm_num), if_neg (by norm_num), if_neg (by norm_num),
    if_neg (by norm_num), if_pos (by norm_num)]
  simp only [Ppu.palRead]
  rw [if_pos (by norm_num)]
  simp [hp1, Ppu.increment_vram, upd]

/-- Witness for C7 at a fresh PPU whose internal address is 0x3f10 and the
written byte 0x2a. -/
theorem c7_palette_alias_witness :
    ∃ p1, Ppu.write_ppudata
        { Ppu.new [] false with addr_register := PpuAddrRegister.mk 0x3f10 true } 0x2a
          = some p1 ∧
      p1.palette 0 = 0x2a ∧
      ((((p1.read_ppustatus).2.write_ppuaddr 0x3f).write_ppuaddr 0x00).read_data).map
        Prod.fst = some 0x2a :=
  c7_palette_alias { Ppu.new [] false with addr_register := PpuAddrRegister.mk 0x3f10 true }
    0x2a rfl

theorem ppuStart_eq (chr : List Nat) (m : Bool) (c : Nat) :
    ppuStart chr m c = ppuPhase1 chr m c 0 := by
  simp [ppuStart, Ppu.write_ppuctrl, Ppu.new, ppuPhase1,
    show is_vblank 0 = false from rfl]

theorem tick_phase1 (chr : List Nat) (m : Bool) (c k : Nat) (h : k + 1 < 241) :
    (ppuPhase1 chr m c k).tick 341 = (ppuPhase1 chr m c (k + 1), false) := by
  simp [Ppu.tick, ppuPhase1, Ppu.new, Ppu.set_sprite0_hit, bset, hasFlag,
    SHOW_SPRITES, SPRITE_0_HIT, VBLANK_START, NMISTARTS_ON_VBI,
    show ¬ k = 240 by omega, show ¬ 262 ≤ k + 1 by omega]

theorem tick_240 (chr : List Nat) (m : Bool) (c : Nat) :
    (ppuPhase1 chr m c 240).tick 341 = (ppuPhase2 chr m c 241, false) := by
  by_cases hn : nmi_starts_on_vblank_ok c
  · simp [Ppu.tick, ppuPhase1, ppuPhase2, Ppu.new, Ppu.set_sprite0_hit, bset, hasFlag,
      SHOW_SPRITES, SPRITE_0_HIT, VBLANK_START, hn]
    decide
  · simp [Ppu.tick, ppuPhase1, ppuPhase2, Ppu.new, Ppu.set_sprite0_hit, bset, hasFlag,
      SHOW_SPRITES, SPRITE_0_HIT, VBLANK_START, hn]
    decide

theorem tick_phase2 (chr : List Nat) (m : Bool) (c k : Nat)
    (hk : 241 ≤ k) (h : k + 1 < 262) :
    (ppuPhase2 chr m c k).tick 341 = (ppuPhase2 chr m c (k + 1), false) := by
  simp [Ppu.tick, ppuPhase2, Ppu.new, Ppu.set_sprite0_hit, bset, hasFlag,
    SHOW_SPRITES, SPRITE_0_HIT, VBLANK_START, NMISTARTS_ON_VBI,
    show ¬ k = 240 by omega, show ¬ 262 ≤ k + 1 by omega]
  decide

theorem tick_261 (chr : List Nat) (m : Bool) (c : Nat) :
    (ppuPhase2 chr m c 261).tick 341 = (ppuPhase1 chr m c 0, true) := by
  simp [Ppu.tick, ppuPhase1, ppuPhase2, Ppu.new, Ppu.set_sprite0_hit, bset, hasFlag,
    SHOW_SPRITES, SPRITE_0_HIT, VBLANK_START]
  decide

theorem runTicks_append (p : Ppu) (a b : Nat) :
    p.runTicks (a + b) = (((p.runTicks a).1.runTicks b).1,
      (p.runTicks a).2 + ((p.runTicks a).1.runTicks b).2) := by
  induction a generalizing p with
  | zero => simp [Ppu.runTicks]
  | succ n ih =>
    have hn : n + 1 + b = (n + b) + 1 := by omega
    rw [hn]
    simp only [Ppu.runTicks]
    rw [ih]
    simp [Nat.add_assoc]

theorem runTicks_phase1 (chr : List Nat) (m : Bool) (c : Nat) (j k : Nat)
    (h : k + j ≤ 240) :
    (ppuPhase1 chr m c k).runTicks j = (ppuPhase1 chr m c (k + j), 0) := by
  induction j generalizing k with
  | zero => simp [Ppu.runTicks]
  | succ n ih =>
    simp only [Ppu.runTicks, tick_phase1 chr m c k (by omega)]
    rw [ih (k + 1) (by omega)]
    have hkn : k + 1 + n = k + (n + 1) := by omega
    rw [hkn]
    simp

theorem runTicks_phase2 (chr : List Nat) (m : Bool) (c : Nat) (j k : Nat)
    (hk : 241 ≤ k) (h : k + j ≤ 261) :
    (ppuPhase2 chr m c k).runTicks j = (ppuPhase2 chr m c (k + j), 0) := by
  induction j generalizing k with
  | zero => simp [Ppu.runTicks]
  | succ n ih =>
    simp only [Ppu.runTicks, tick_phase2 chr m c k hk (by omega)]
    rw [ih (k + 1) (by omega) (by omega)]
    have hkn : k + 1 + n = k + (n + 1) := by omega
    rw [hkn]
    simp

theorem runTicks_241 (chr : List Nat) (m : Bool) (c : Nat) :
    (ppuStart chr m c).runTicks 241 = (ppuPhase2 chr m c 241, 0) := by
  rw [ppuStart_eq, show (241 : Nat) = 240 + 1 from rfl, runTicks_append,
    runTicks_phase1 chr m c 240 0 (by omega)]
  simp [Ppu.runTicks, tick_240]

theorem runTicks_262 (chr : List Nat) (m : Bool) (c : Nat) :
    (ppuStart chr m c).runTicks 262 = (ppuPhase1 chr m c 0, 1) := by
  rw [show (262 : Nat) = 241 + 21 from rfl, runTicks_append, runTicks_241]
  rw [show (21 : Nat) = 20 + 1 from rfl, runTicks_append,
    runTicks_phase2 chr m c 20 241 (by omega) (by omega)]
  simp [Ppu.runTicks, tick_261]

theorem nmi_ok_iff_testBit (c : Nat) : nmi_starts_on_vblank_ok c = Nat.testBit c 7 := by
  unfold nmi_starts_on_vblank_ok hasFlag NMISTARTS_ON_VBI
  have h := Nat.and_two_pow c 7
  norm_num at h
  rw [h]
  cases hb : c.testBit 7 <;> simp

/-- C1 fails as stated: from a freshly constructed PPU with NMI enabled
(PPUCTRL = 0x80), 241 calls of tick with 341 dots report zero frame
boundaries, not exactly one — the frame wraps only on entering scanline 262,
i.e. on the 262nd call. -/
theorem c1_counterexample :
    ((ppuStart [] false 0x80).runTicks 241).2 = 0 ∧
    ((ppuStart [] false 0x80).runTicks 241).2 ≠ 1 := by
  rw [runTicks_241]
  exact ⟨rfl, by decide⟩

/-- C1 (amended): from a freshly constructed PPU with PPUCTRL written as c,
262 calls of tick with 341 dots report exactly one frame boundary; after the
241st call (entering scanline 241) the VBlank status bit is set, and the
NMI-pending edge has been raised if and only if PPUCTRL bit 7 was set. -/
theorem c1_tick_sequence (chr : List Nat) (m : Bool) (c : Nat) (_hc : c < 256) :
    ((ppuStart chr m c).runTicks 262).2 = 1 ∧
    Nat.testBit (((ppuStart chr m c).runTicks 241).1.status_register) 7 = true ∧
    ((((ppuStart chr m c).runTicks 241).1.has_nmi = some true) ↔ Nat.testBit c 7 = true) := by
  rw [runTicks_262, runTicks_241]
  have hs : (ppuPhase2 chr m c 241).status_register = 128 := rfl
  refine ⟨rfl, by rw [show ((ppuPhase2 chr m c 241, 0).1.status_register) = 128 from hs]; decide, ?_⟩
  simp only [ppuPhase2, nmi_ok_iff_testBit]
  cases hb : c.testBit 7 <;> simp

/-- Witness for C1 (amended) at a fresh PPU with no character ROM,
horizontal mirroring and PPUCTRL = 0x80 (NMI enabled). -/
theorem c1_tick_sequence_witness :
    ((ppuStart [] false 0x80).runTicks 262).2 = 1 ∧
    Nat.testBit (((ppuStart [] false 0x80).runTicks 241).1.status_register) 7 = true ∧
    ((((ppuStart [] false 0x80).runTicks 241).1.has_nmi = some true)
        ↔ Nat.testBit 0x80 7 = true) :=
  c1_tick_sequence [] false 0x80 (by decide)

theorem get?_replicate (a : Nat) (n i : Nat) (h : i < n) :
    (List.replicate n a).get? i = some a := by
  simp [List.get?_eq_getElem?, h]

theorem zeroRom_read_hi (a : Nat) (h1 : 0xc000 ≤ a) (h2 : a ≤ 0xffff) :
    zeroRom.read_byte a = some 0 := by
  unfold zeroRom Rom.read_byte
  simp only [List.length_replicate]
  rw [if_pos (by simp; omega)]
  exact get?_replicate 0 16384 _ (by omega)

theorem rom_read_u8 (bus : Bus) (a v : Nat) (h1 : 0x8000 ≤ a) (h2 : a ≤ 0xffff)
    (hr : bus.rom.read_byte a = some v) : bus.read_u8 a = some (v, bus) := by
  simp only [Bus.read_u8]
  rw [if_neg (by omega), if_neg (by omega), if_neg (by omega), if_neg (by omega),
    if_neg (by omega), if_neg (by omega), if_pos (by omega), hr]
  rfl

theorem rom_read_u16 (bus : Bus) (a lo hi : Nat) (h1 : 0x8000 ≤ a) (h2 : a + 1 ≤ 0xffff)
    (hlo : bus.rom.read_byte a = some lo) (hhi : bus.rom.read_byte (a + 1) = some hi) :
    bus.read_u16 a = some (lo ||| hi <<< 8, bus) := by
  simp only [Bus.read_u16]
  have e0 : (a + 0) % 65536 = a := by omega
  have e1 : (a + 1) % 65536 = a + 1 := by omega
  rw [e0, e1, rom_read_u8 bus a lo h1 (by omega) hlo]
  simp [rom_read_u8 bus (a + 1) hi (by omega) (by omega) hhi]

theorem zeroBus_read_u16 (a : Nat) (h1 : 0xc000 ≤ a) (h2 : a + 1 ≤ 0xffff) :
    (Bus.new zeroRom).read_u16 a = some (0, Bus.new zeroRom) := by
  have h := rom_read_u16 (Bus.new zeroRom) a 0 0 (by omega) (by omega)
    (zeroRom_read_hi a (by omega) (by omega)) (zeroRom_read_hi (a + 1) (by omega) (by omega))
  simpa using h

theorem reset_spec (cpu : Cpu) (V : Nat)
    (h : cpu.bus.read_u16 0xfffc = some (V, cpu.bus)) :
    cpu.reset = some { cpu with a := 0, x := 0, p := 0x24, sp := 0xfd, pc := V } := by
  simp only [Cpu.reset]
  rw [show ({ cpu with a := 0, x := 0, p := 0x24 } : Cpu).bus = cpu.bus from rfl, h]
  rfl

/-- C2 (amended): for every CPU state and every bus whose 16-bit vector at
0xfffc reads (purely) as V, reset sets A = 0, X = 0, P = 0x24, SP = 0xfd and
PC = V — and leaves Y at its previous value (the source never clears Y). -/
theorem c2_reset (cpu : Cpu) (V : Nat)
    (h : cpu.bus.read_u16 0xfffc = some (V, cpu.bus)) :
    cpu.reset = some { cpu with a := 0, x := 0, p := 0x24, sp := 0xfd, pc := V } :=
  reset_spec cpu V h

/-- C2 fails as stated: resetting a CPU whose Y register holds 5 (on a bus
whose reset vector reads 0x0000) leaves Y = 5; reset does not clear Y. -/
theorem c2_counterexample :
    (Cpu.reset (Cpu.mk 0 9 9 5 0 0 0 (Bus.new zeroRom))).map Cpu.y = some 5 ∧
    (Cpu.reset (Cpu.mk 0 9 9 5 0 0 0 (Bus.new zeroRom))).map Cpu.y ≠ some 0 := by
  rw [reset_spec (Cpu.mk 0 9 9 5 0 0 0 (Bus.new zeroRom)) 0
    (zeroBus_read_u16 0xfffc (by norm_num) (by norm_num))]
  exact ⟨rfl, by simp⟩

/-- Witness for C2 (amended) at a concrete CPU with nonzero registers on a
bus whose reset vector reads 0x0000. -/
theorem c2_reset_witness :
    Cpu.reset (Cpu.mk 0 1 2 3 4 5 6 (Bus.new zeroRom)) = some
      { Cpu.mk 0 1 2 3 4 5 6 (Bus.new zeroRom) with
          a := 0, x := 0, p := 0x24, sp := 0xfd, pc := 0 } :=
  c2_reset (Cpu.mk 0 1 2 3 4 5 6 (Bus.new zeroRom)) 0
    (zeroBus_read_u16 0xfffc (by norm_num) (by norm_num))

theorem or_256_lt (s : Nat) (h : s < 256) : 0x100 ||| s < 512 :=
  Nat.or_lt_two_pow (n := 9) (by norm_num) (by omega)

theorem stack_push_ram (cpu : Cpu) (v : Nat) (hsp : cpu.sp < 256) :
    cpu.stack_push_u8 v = some
      { cpu with
          sp := (cpu.sp + 255) % 256
          bus := { cpu.bus with
                     ram := upd cpu.bus.ram ((0x100 ||| cpu.sp) % 0x800) v } } := by
  simp only [Cpu.stack_push_u8, Bus.write_u8, STACK_BYTE_HIGH]
  rw [if_pos (by have := or_256_lt cpu.sp hsp; omega)]
  rfl

theorem stack_push_u16_ram (cpu : Cpu) (v : Nat) (hsp : cpu.sp < 256) :
    cpu.stack_push_u16 v = some
      { cpu with
          sp := (cpu.sp + 254) % 256
          bus := { cpu.bus with
                     ram := upd (upd cpu.bus.ram ((0x100 ||| cpu.sp) % 0x800)
                                  ((v &&& 0xff00) >>> 8))
                              ((0x100 ||| ((cpu.sp + 255) % 256)) % 0x800) (v &&& 0xff) } } := by
  simp only [Cpu.stack_push_u16]
  rw [stack_push_ram cpu _ hsp]
  simp only [Option.bind_eq_bind, Option.some_bind]
  rw [stack_push_ram _ _ (show (cpu.sp + 255) % 256 < 256 from Nat.mod_lt _ (by norm_num))]
  have e : ((cpu.sp + 255) % 256 + 255) % 256 = (cpu.sp + 254) % 256 := by omega
  rw [e]

theorem nmi_spec (cpu : Cpu) (lo hi : Nat) (hsp : cpu.sp < 256)
    (hlo : cpu.bus.rom.read_byte 0xfffa = some lo)
    (hhi : cpu.bus.rom.read_byte 0xfffb = some hi) :
    cpu.nmi = some
      { cpu with
          sp := (cpu.sp + 253) % 256
          p := (cpu.p &&& (0xff ^^^ 0x10) ||| 0x20) ||| 0x04
          pc := lo ||| hi <<< 8
          bus := { cpu.bus with
                     ram := upd (upd (upd cpu.bus.ram ((0x100 ||| cpu.sp) % 0x800)
                                       ((cpu.pc &&& 0xff00) >>> 8))
                                  ((0x100 ||| ((cpu.sp + 255) % 256)) % 0x800)
                                  (cpu.pc &&& 0xff))
                              ((0x100 ||| ((cpu.sp + 254) % 256)) % 0x800)
                              ((cpu.p &&& (0xff ^^^ 0x10)) ||| 0x20) } } := by
  simp only [Cpu.nmi, Cpu.clear_flag, Cpu.set_flag, FLAG_BREAK, FLAG_UNUSED, FLAG_INT_DISABLE]
  rw [stack_push_u16_ram cpu cpu.pc hsp]
  simp only [Option.bind_eq_bind, Option.some_bind]
  rw [stack_push_ram _ _ (show (cpu.sp + 254) % 256 < 256 from Nat.mod_lt _ (by norm_num))]
  simp only [Option.bind_eq_bind, Option.some_bind]
  rw [rom_read_u16 _ 0xfffa lo hi (by norm_num) (by norm_num)]
  · simp only [Option.bind_eq_bind, Option.some_bind]
    have e : ((cpu.sp + 254) % 256 + 255) % 256 = (cpu.sp + 253) % 256 := by omega
    rw [e]
    rfl
  · exact hlo
  · exact hhi

/-- C4 (amended): the NMI entry pushes PC high byte first then low byte,
then pushes P with Break cleared and Unused set, and loads PC from the
vector at 0xfffa — but Break is cleared and Unused is set on the live P
register itself before the push, so the live P after NMI entry equals the
pre-entry P with Break cleared, Unused set and interrupt-disable set (not
just the I flag changed). -/
theorem c4_nmi (cpu : Cpu) (lo hi : Nat) (hsp : cpu.sp < 256)
    (hlo : cpu.bus.rom.read_byte 0xfffa = some lo)
    (hhi : cpu.bus.rom.read_byte 0xfffb = some hi) :
    cpu.nmi = some
      { cpu with
          sp := (cpu.sp + 253) % 256
          p := (cpu.p &&& (0xff ^^^ 0x10) ||| 0x20) ||| 0x04
          pc := lo ||| hi <<< 8
          bus := { cpu.bus with
                     ram := upd (upd (upd cpu.bus.ram ((0x100 ||| cpu.sp) % 0x800)
                                       ((cpu.pc &&& 0xff00) >>> 8))
                                  ((0x100 ||| ((cpu.sp + 255) % 256)) % 0x800)
                                  (cpu.pc &&& 0xff))
                              ((0x100 ||| ((cpu.sp + 254) % 256)) % 0x800)
                              ((cpu.p &&& (0xff ^^^ 0x10)) ||| 0x20) } } :=
  nmi_spec cpu lo hi hsp hlo hhi


/-- C4 fails as stated: entering NMI with P = 0x10 (Break set) yields live
P = 0x24, which differs from the pre-entry P outside the I flag (Break was
cleared and Unused set on the live register). -/
theorem c4_counterexample :
    (Cpu.nmi (Cpu.mk 0x1234 0 0 0 0xfd 0x10 0 (Bus.new zeroRom))).map (fun c => c.p &&& 0xfb)
      ≠ some ((Cpu.mk 0x1234 0 0 0 0xfd 0x10 0 (Bus.new zeroRom)).p &&& 0xfb) := by
  rw [nmi_spec (Cpu.mk 0x1234 0 0 0 0xfd 0x10 0 (Bus.new zeroRom)) 0 0 (by decide)
    (zeroRom_read_hi 0xfffa (by norm_num) (by norm_num))
    (zeroRom_read_hi 0xfffb (by norm_num) (by norm_num))]
  simp only [Option.map_some]
  decide

/-- Witness for C4 (amended) at a concrete CPU (PC = 0x1234, P = 0x10,
SP = 0xfd) on a bus whose NMI vector reads 0x0000. -/
theorem c4_nmi_witness :
    (Cpu.mk 0x1234 0 0 0 0xfd 0x10 0 (Bus.new zeroRom)).nmi = some
      { Cpu.mk 0x1234 0 0 0 0xfd 0x10 0 (Bus.new zeroRom) with
          sp := 0xfa
          p := 0x24
          pc := 0
          bus := { Bus.new zeroRom with
                     ram := upd (upd (upd (Bus.new zeroRom).ram 0x1fd 0x12) 0x1fc 0x34)
                              0x1fb 0x20 } } :=
  c4_nmi (Cpu.mk 0x1234 0 0 0 0xfd 0x10 0 (Bus.new zeroRom)) 0 0 (by decide)
    (zeroRom_read_hi 0xfffa (by norm_num) (by norm_num))
    (zeroRom_read_hi 0xfffb (by norm_num) (by norm_num))

theorem rom_read_bytes1 (bus : Bus) (a b0 : Nat) (h1 : 0x8000 ≤ a) (h2 : a ≤ 0xffff)
    (r0 : bus.rom.read_byte a = some b0) :
    bus.read_bytes a 1 = some ([b0], bus) := by
  simp only [Bus.read_bytes]
  rw [rom_read_u8 bus a b0 h1 h2 r0]
  simp only [Option.bind_eq_bind, Option.some_bind, Bus.read_bytes]
  rfl

theorem rom_read_bytes3 (bus : Bus) (a b0 b1 b2 : Nat) (h1 : 0x8000 ≤ a)
    (h2 : a + 2 ≤ 0xffff)
    (r0 : bus.rom.read_byte a = some b0) (r1 : bus.rom.read_byte (a + 1) = some b1)
    (r2 : bus.rom.read_byte (a + 2) = some b2) :
    bus.read_bytes a 3 = some ([b0, b1, b2], bus) := by
  have e1 : (a + 1) % 65536 = a + 1 := by omega
  have e2 : (a + 1 + 1) % 65536 = a + 2 := by omega
  simp only [Bus.read_bytes]
  rw [rom_read_u8 bus a b0 h1 (by omega) r0]
  simp only [Option.bind_eq_bind, Option.some_bind, Bus.read_bytes, e1]
  rw [rom_read_u8 bus (a + 1) b1 (by omega) (by omega) r1]
  simp only [Option.bind_eq_bind, Option.some_bind, Bus.read_bytes, e2]
  rw [rom_read_u8 bus (a + 2) b2 (by omega) (by omega) r2]
  simp only [Option.bind_eq_bind, Option.some_bind, Bus.read_bytes]
  rfl

theorem stack_pop_ram (cpu : Cpu) :
    cpu.stack_pop_u8 = some (cpu.bus.ram ((0x100 ||| ((cpu.sp + 1) % 256)) % 0x800),
      { cpu with sp := (cpu.sp + 1) % 256 }) := by
  simp only [Cpu.stack_pop_u8, Bus.read_u8, STACK_BYTE_HIGH]
  rw [if_pos (by have := or_256_lt ((cpu.sp + 1) % 256) (Nat.mod_lt _ (by norm_num)); omega)]
  rfl

theorem stack_pop_u16_ram (cpu : Cpu) :
    cpu.stack_pop_u16 = some (
      cpu.bus.ram ((0x100 ||| ((cpu.sp + 2) % 256)) % 0x800) <<< 8
        ||| cpu.bus.ram ((0x100 ||| ((cpu.sp + 1) % 256)) % 0x800),
      { cpu with sp := (cpu.sp + 2) % 256 }) := by
  simp only [Cpu.stack_pop_u16]
  rw [stack_pop_ram]
  simp only [Option.bind_eq_bind, Option.some_bind]
  rw [stack_pop_ram]
  simp only [Option.bind_eq_bind, Option.some_bind]
  have e : ((cpu.sp + 1) % 256 + 1) % 256 = (cpu.sp + 2) % 256 := by omega
  rw [e]
  rfl

theorem bytes_recompose (r : Nat) (h : r < 65536) :
    ((r &&& 0xff00) >>> 8) <<< 8 ||| (r &&& 0xff) = r := by
  have hx : (r &&& 0xff00) % 256 = 0 := by
    rw [← land_mod_256, Nat.and_assoc, show (0xff00 &&& 0xff : Nat) = 0 by decide]
    simp
  have h1 : ((r &&& 0xff00) >>> 8) <<< 8 = r &&& 0xff00 := by
    rw [Nat.shiftRight_eq_div_pow, Nat.shiftLeft_eq]
    omega
  rw [h1, ← Nat.and_or_distrib_left]
  rw [show (0xff00 ||| 0xff : Nat) = 0xffff by decide]
  have := Nat.and_pow_two_sub_one_of_lt_two_pow (n := 16) (show r < 2 ^ 16 by omega)
  norm_num at this
  exact this

theorem or_256_eq_add (s : Nat) (h : s < 256) : 0x100 ||| s = 0x100 + s := by
  have h2 := Nat.mul_add_lt_is_or (i := 8) (b := s) (by simpa using h) 1
  norm_num at h2
  omega

theorem stack_addr_eq (s : Nat) (h : s < 256) : (0x100 ||| s) % 0x800 = 0x100 + s := by
  rw [or_256_eq_add s h]
  exact Nat.mod_eq_of_lt (by omega)

theorem c8_step1 (cpu : Cpu) (lo hi : Nat)
    (hsp : cpu.sp < 256)
    (hpc1 : 0x8000 ≤ cpu.pc) (hpc2 : cpu.pc + 2 ≤ 0xffff)
    (h0 : cpu.bus.rom.read_byte cpu.pc = some 0x20)
    (h1 : cpu.bus.rom.read_byte (cpu.pc + 1) = some lo)
    (h2 : cpu.bus.rom.read_byte (cpu.pc + 2) = some hi) :
    cpu.step = some ({ cpu with
        pc := lo ||| hi <<< 8
        sp := (cpu.sp + 254) % 256
        cycles := (cpu.cycles + 6) % 2 ^ 64
        bus := { (cpu.bus.tick 6).1 with
                   ram := upd (upd (cpu.bus.tick 6).1.ram ((0x100 ||| cpu.sp) % 0x800)
                                (((cpu.pc + 2) &&& 0xff00) >>> 8))
                            ((0x100 ||| ((cpu.sp + 255) % 256)) % 0x800)
                            ((cpu.pc + 2) &&& 0xff) } }, 6) := by
  simp only [Cpu.step]
  rw [rom_read_u8 cpu.bus cpu.pc 0x20 hpc1 (by omega) h0]
  simp only [Option.bind_eq_bind, Option.some_bind]
  rw [show Cpu.decode 0x20 = ⟨Opcode.Jsr, AddressingMode.Absolute, 3, 6⟩ from rfl]
  simp only [Option.bind_eq_bind]
  rw [rom_read_bytes3 cpu.bus cpu.pc 0x20 lo hi hpc1 hpc2 h0 h1 h2]
  simp only [Option.some_bind]
  simp only [Cpu.execute, Cpu.get_operand_address, get_address]
  simp only [Option.bind_eq_bind, Option.some_bind, List.getD_cons_succ, List.getD_cons_zero]
  rw [show (cpu.pc + 2) % 65536 = cpu.pc + 2 by omega]
  rw [stack_push_u16_ram]
  · simp only [Option.some_bind]
    rfl
  · exact hsp

theorem rts_step (cpu : Cpu)
    (hpc1 : 0x8000 ≤ cpu.pc) (hpc2 : cpu.pc ≤ 0xffff)
    (h0 : cpu.bus.rom.read_byte cpu.pc = some 0x60) :
    cpu.step = some ({ cpu with
        pc := ((cpu.bus.ram ((0x100 ||| ((cpu.sp + 2) % 256)) % 0x800) <<< 8
                 ||| cpu.bus.ram ((0x100 ||| ((cpu.sp + 1) % 256)) % 0x800)) + 1) % 65536
        sp := (cpu.sp + 2) % 256
        cycles := (cpu.cycles + 6) % 2 ^ 64
        bus := (cpu.bus.tick 6).1 }, 6) := by
  simp only [Cpu.step]
  rw [rom_read_u8 cpu.bus cpu.pc 0x60 hpc1 hpc2 h0]
  simp only [Option.bind_eq_bind, Option.some_bind]
  rw [show Cpu.decode 0x60 = ⟨Opcode.Rts, AddressingMode.Implied, 1, 6⟩ from rfl]
  simp only [Option.bind_eq_bind]
  rw [rom_read_bytes1 cpu.bus cpu.pc 0x60 hpc1 hpc2 h0]
  simp only [Option.some_bind]
  simp only [Cpu.execute]
  rw [stack_pop_u16_ram]
  simp only [Option.bind_eq_bind, Option.some_bind]
  rfl

/-- C8: with PC at a JSR whose 3 bytes and whose RTS target lie in
cartridge ROM, executing the JSR pushes PC+2 (the address of the JSR's last
byte) high byte first (at 0x0100|SP) then low byte (at 0x0100|SP-1), lands
on the target, and executing the RTS there returns PC to PC+3 (the
instruction after the JSR) with the stack pointer restored. -/
theorem c8_jsr_rts (cpu : Cpu) (lo hi : Nat)
    (hsp : cpu.sp < 256)
    (hpc1 : 0x8000 ≤ cpu.pc) (hpc2 : cpu.pc + 2 ≤ 0xffff)
    (h0 : cpu.bus.rom.read_byte cpu.pc = some 0x20)
    (h1 : cpu.bus.rom.read_byte (cpu.pc + 1) = some lo)
    (h2 : cpu.bus.rom.read_byte (cpu.pc + 2) = some hi)
    (htgt1 : 0x8000 ≤ lo ||| hi <<< 8) (htgt2 : lo ||| hi <<< 8 ≤ 0xffff)
    (h3 : cpu.bus.rom.read_byte (lo ||| hi <<< 8) = some 0x60) :
    ∃ cpu1 : Cpu,
      cpu.step = some (cpu1, 6) ∧
      cpu1.pc = lo ||| hi <<< 8 ∧
      cpu1.sp = (cpu.sp + 254) % 256 ∧
      cpu1.bus.ram ((0x100 ||| cpu.sp) % 0x800) = ((cpu.pc + 2) &&& 0xff00) >>> 8 ∧
      cpu1.bus.ram ((0x100 ||| ((cpu.sp + 255) % 256)) % 0x800) = (cpu.pc + 2) &&& 0xff ∧
      ∃ cpu2 : Cpu,
        cpu1.step = some (cpu2, 6) ∧
        cpu2.pc = (cpu.pc + 3) % 65536 ∧
        cpu2.sp = cpu.sp := by
  have hm1 : (cpu.sp + 255) % 256 < 256 := Nat.mod_lt _ (by norm_num)
  have hne : 0x100 + cpu.sp ≠ 0x100 + (cpu.sp + 255) % 256 := by omega
  refine ⟨_, c8_step1 cpu lo hi hsp hpc1 hpc2 h0 h1 h2, rfl, rfl, ?_, ?_, ?_⟩
  · simp only [upd, stack_addr_eq cpu.sp hsp, stack_addr_eq _ hm1]
    simp
    intro h
    exact absurd h (by omega)
  · simp only [upd, stack_addr_eq cpu.sp hsp, stack_addr_eq _ hm1]
    simp
  refine ⟨_, rts_step _ htgt1 htgt2 h3, ?_, ?_⟩
  · have i2 : ((cpu.sp + 254) % 256 + 2) % 256 = cpu.sp := by omega
    have i1 : ((cpu.sp + 254) % 256 + 1) % 256 = (cpu.sp + 255) % 256 := by omega
    simp only [i1, i2, upd, stack_addr_eq cpu.sp hsp, stack_addr_eq _ hm1]
    rw [if_neg hne]
    norm_num
    rw [bytes_recompose (cpu.pc + 2) (by omega)]
  · show ((cpu.sp + 254) % 256 + 2) % 256 = cpu.sp
    omega

theorem jsrRom_read_byte (i : Nat) (hi : i < 6) :
    jsrRom.read_byte (0x8000 + i) = [0x20, 0x05, 0x80, 0x00, 0x00, 0x60].get? i := by
  unfold jsrRom Rom.read_byte
  have e : 0x8000 + i - 0x8000 = i := by omega
  simp only [e, List.length_append, List.length_replicate]
  rw [if_neg (by norm_num; omega)]
  exact List.get?_append (by norm_num; omega)

theorem jsrRom_r0 : jsrRom.read_byte 0x8000 = some 0x20 := by
  simpa using jsrRom_read_byte 0 (by norm_num)

theorem jsrRom_r1 : jsrRom.read_byte 0x8001 = some 0x05 := by
  simpa using jsrRom_read_byte 1 (by norm_num)

theorem jsrRom_r2 : jsrRom.read_byte 0x8002 = some 0x80 := by
  simpa using jsrRom_read_byte 2 (by norm_num)

theorem jsrRom_r5 : jsrRom.read_byte 0x8005 = some 0x60 := by
  simpa using jsrRom_read_byte 5 (by norm_num)

/-- Witness for C8 at the spec's end-to-end scenario: `JSR 0x8005; BRK; BRK;
RTS` at 0x8000 with SP = 0xfd — after the JSR, PC = 0x8005, SP = 0xfb, the
return address 0x8002 sits on the stack high byte first; after the RTS,
PC = 0x8003 and SP = 0xfd again. -/
theorem c8_jsr_rts_witness :
    ∃ cpu1 : Cpu,
      (Cpu.mk 0x8000 0 0 0 0xfd 0x24 0 (Bus.new jsrRom)).step = some (cpu1, 6) ∧
      cpu1.pc = 0x8005 ∧
      cpu1.sp = 0xfb ∧
      cpu1.bus.ram 0x1fd = 0x80 ∧
      cpu1.bus.ram 0x1fc = 0x02 ∧
      ∃ cpu2 : Cpu,
        cpu1.step = some (cpu2, 6) ∧
        cpu2.pc = 0x8003 ∧
        cpu2.sp = 0xfd :=
  c8_jsr_rts (Cpu.mk 0x8000 0 0 0 0xfd 0x24 0 (Bus.new jsrRom)) 0x05 0x80
    (by decide) (by decide) (by decide) jsrRom_r0 jsrRom_r1 jsrRom_r2
    (by decide) (by decide) jsrRom_r5

end Crabbiness
